import Mathlib

/-!
Verification of the OSD webform backend (src/server.js).

The development shallowly embeds the document-rendering pipeline and the
`/api/signoff` request handler.  Rendering is modelled as the list of
drawing operations the composer issues; geometry values that the PDF
library supplies at run time (page height, margins, the cursor position at
which the photo grid starts) are collected in a `Geom` record and passed
in, mirroring how the code reads them from `doc`/`doc.page`.
-/

namespace OsdWebform

/-- A JavaScript value in a position where `dataUrlToBuffer` expects a
data-URL string.  `nullv`/`undef` cover `null`/`undefined`; `otherNonString`
covers any remaining non-string value (all rejected by the
`!dataUrl || typeof dataUrl !== 'string'` guard). -/
inductive JsArg where
  | str (s : String)
  | nullv
  | undef
  | otherNonString
  deriving DecidableEq, Repr

/-- One entry of the `photos` array.  `p?.dataUrl` on a `null` entry yields
`undefined`, which `JsArg.undef` represents. -/
structure Photo where
  dataUrl : JsArg
  name : Option String
  deriving DecidableEq, Repr

/-- The `photos` field of the payload: absent (`undefined`, triggering the
destructuring default `[]`), `null`, an array, or any other non-array
value. -/
inductive PhotosField where
  | undef
  | nullv
  | arr (ps : List Photo)
  | nonArray
  deriving DecidableEq, Repr

/-- The request payload destructured by `buildPdfBuffer` plus the `toEmail`
field read by the route handler.  Scalar fields are optional strings
(absent = `undefined`). -/
structure Payload where
  timestamp : Option String
  location : Option String
  loadId : Option String
  poNumber : Option String
  trailerNumber : Option String
  stopNumber : Option String
  carrier : Option String
  vendorId : Option String
  vendorName : Option String
  notes : Option String
  driverName : Option String
  proNumber : Option String
  signatureDataUrl : JsArg
  photos : PhotosField
  toEmail : Option String
  deriving DecidableEq, Repr

/-- Process environment: the `TO_EMAIL` default recipient. -/
structure Env where
  toEmail : Option String
  deriving DecidableEq, Repr

/-- JavaScript `v || d` for an optional string: the default is taken when
the value is absent or the empty string (both falsy). -/
def jsOrStr (v : Option String) (d : String) : String :=
  match v with
  | some s => if s = "" then d else s
  | none => d

/-- JavaScript `String(val ?? '')`: only `null`/`undefined` become `""`. -/
def strOf (v : Option String) : String := v.getD ""

/-- Truthiness of an optional string: present and non-empty. -/
def isTruthyStr (v : Option String) : Bool :=
  match v with
  | some s => s ≠ ""
  | none => false

/-! ## Image Decoder (`dataUrlToBuffer`, src/server.js lines 68-73) -/

/-- Characters matched by `.` in a JavaScript regular expression without the
`s` flag: everything except the four line terminators. -/
def dotChar (c : Char) : Bool :=
  c ≠ '\n' && c ≠ '\r' && c.toNat ≠ 0x2028 && c.toNat ≠ 0x2029

/-- The literal `;base64,` of the regex `/^data:(.+?);base64,(.+)$/`. -/
def b64marker : List Char := String.toList ";base64,"

/-- Backtracking matcher for `(.+?);base64,(.+)$` applied after the `data:`
prefix.  `acc` is the descriptor consumed so far; laziness of `(.+?)` means
the marker is tried at each position before the descriptor grows, and a
failed payload check falls through to growing the descriptor, exactly as
regex backtracking does. -/
def findMatch (acc : List Char) (rest : List Char) : Option (List Char × List Char) :=
  if acc ≠ [] ∧ rest.take 8 = b64marker ∧ rest.drop 8 ≠ [] ∧ (rest.drop 8).all dotChar then
    some (acc, rest.drop 8)
  else
    match rest with
    | [] => none
    | c :: rs => if dotChar c then findMatch (acc ++ [c]) rs else none

/-- `s.match(/^data:(.+?);base64,(.+)$/)`: returns (descriptor, payload)
when the string matches. -/
def matchDataUrl (s : String) : Option (List Char × List Char) :=
  let cs := s.toList
  if cs.take 5 = String.toList "data:" then findMatch [] (cs.drop 5) else none

/-- Value of one base64 digit.  Node's base64 decoder accepts the standard
and the url-safe alphabets and skips every other character. -/
def b64Val (c : Char) : Option Nat :=
  let n := c.toNat
  if 65 ≤ n ∧ n ≤ 90 then some (n - 65)
  else if 97 ≤ n ∧ n ≤ 122 then some (n - 71)
  else if 48 ≤ n ∧ n ≤ 57 then some (n + 4)
  else if c = '+' ∨ c = '-' then some 62
  else if c = '/' ∨ c = '_' then some 63
  else none

/-- The `k` low bits of `n`, most significant first. -/
def natToBits : Nat → Nat → List Bool
  | 0, _ => []
  | k + 1, n => decide (n / 2 ^ k % 2 = 1) :: natToBits k n

/-- Pack a bit stream into bytes, discarding an incomplete trailing group —
Node's `Buffer.from(s, 'base64')` yields `3n/4` (floored) bytes for `n`
valid digits. -/
def bitsToBytes : List Bool → List Nat
  | b7 :: b6 :: b5 :: b4 :: b3 :: b2 :: b1 :: b0 :: rest =>
      ((if b7 then 128 else 0) + (if b6 then 64 else 0) + (if b5 then 32 else 0) +
       (if b4 then 16 else 0) + (if b3 then 8 else 0) + (if b2 then 4 else 0) +
       (if b1 then 2 else 0) + (if b0 then 1 else 0)) :: bitsToBytes rest
  | _ => []

/-- `Buffer.from(payload, 'base64')` as a byte list. -/
def base64Decode (payload : List Char) : List Nat :=
  bitsToBytes (List.flatten ((payload.filterMap b64Val).map (natToBits 6)))

/-- `dataUrlToBuffer` (src/server.js lines 68-73): `null` for a falsy or
non-string input or a regex mismatch, otherwise the decoded base64 payload.
An empty string is falsy, hence the explicit guard. -/
def dataUrlToBuffer : JsArg → Option (List Nat)
  | JsArg.str s =>
      if s = "" then none
      else
        match matchDataUrl s with
        | some dp => some (base64Decode dp.2)
        | none => none
  | _ => none

/-! ## Layout model -/

/-- Geometry the PDF library supplies: page height and margins of
`doc.page`, and the cursor position (`doc.x`, `doc.y`) at the point the
photo grid begins. -/
structure Geom where
  pageHeight : Int
  bottomMargin : Int
  topMargin : Int
  leftMargin : Int
  gridStartX : Int
  gridStartY : Int
  deriving DecidableEq, Repr

/-- Drawing operations the composer issues, in source order.  `photoCell`
bundles the border, the `doc.image` attempt (`ok` records whether the image
call succeeds rather than being swallowed by the `catch`) and the caption
drawn for one grid cell. -/
inductive Op where
  | title (s : String)
  | genStamp (t : String)
  | labeledLine (label : String) (value : String) (x : Int)
  | sectionHeading (s : String)
  | paragraph (s : String)
  | sigBorder (w : Int) (h : Int)
  | sigImage (bytes : List Nat) (ok : Bool)
  | pageBreak
  | photoCell (page : Nat) (x : Int) (y : Int) (bytes : List Nat) (ok : Bool) (caption : String)
  deriving DecidableEq, Repr

def cellW : Int := 160
def cellH : Int := 120
def gap : Int := 12
def colGap : Int := 280

/-- PNG signature bytes. -/
def pngMagic : List Nat := [137, 80, 78, 71, 13, 10, 26, 10]

/-- Whether `doc.image` accepts the buffer: the library dispatches on the
PNG signature or the JPEG start-of-image marker and throws otherwise. -/
def imageOk (b : List Nat) : Bool :=
  b.take 8 = pngMagic || b.take 2 = [255, 216]

/-- The two-column metadata block (src/server.js lines 118-132): six
labelled lines at the left margin, five at `leftX + colGap`. -/
def metadataOps (g : Geom) (p : Payload) : List Op :=
  [Op.labeledLine "Date/Time" (strOf p.timestamp) g.leftMargin,
   Op.labeledLine "Location" (strOf p.location) g.leftMargin,
   Op.labeledLine "Load ID / BOL #" (strOf p.loadId) g.leftMargin,
   Op.labeledLine "PO Number" (strOf p.poNumber) g.leftMargin,
   Op.labeledLine "Trailer #" (strOf p.trailerNumber) g.leftMargin,
   Op.labeledLine "Stop #" (strOf p.stopNumber) g.leftMargin,
   Op.labeledLine "Carrier" (strOf p.carrier) (g.leftMargin + colGap),
   Op.labeledLine "Vendor ID" (strOf p.vendorId) (g.leftMargin + colGap),
   Op.labeledLine "Vendor Name" (strOf p.vendorName) (g.leftMargin + colGap),
   Op.labeledLine "Driver Name" (strOf p.driverName) (g.leftMargin + colGap),
   Op.labeledLine "PRO #" (strOf p.proNumber) (g.leftMargin + colGap)]

/-- The signature block (src/server.js lines 142-155).  The guard is
`if (sigBuf)`: a Buffer object is truthy even when empty, so the block is
emitted exactly when the decoder returns non-`null`.  The border is
`sigW + 4` by `sigH + 4`; the `doc.image` call is attempted inside
`try`/`catch`, so a bad image leaves the bordered box empty. -/
def signatureOps (sig : JsArg) : List Op :=
  match dataUrlToBuffer sig with
  | none => []
  | some b => [Op.sectionHeading "Driver Signature", Op.sigBorder 384 124,
               Op.sigImage b (imageOk b)]

/-- Loop state of the photo grid (src/server.js lines 163-187): the `x`,
`rowY`, `col` locals, the current page, and `docX`, the model of the
library cursor `doc.x` read by `x = doc.x` — after a caption is drawn at an
explicit x, `doc.x` equals that x, and `addPage` resets it to the left
margin. -/
structure GridState where
  x : Int
  rowY : Int
  col : Nat
  page : Nat
  docX : Int
  deriving DecidableEq, Repr

/-- `if (col === 3) { col = 0; x = doc.x; rowY += cellH + gap; }`. -/
def rowStart (st : GridState) : GridState :=
  if st.col = 3 then { st with col := 0, x := st.docX, rowY := st.rowY + cellH + gap } else st

/-- `(p?.name || '').slice(0, 24)`. -/
def captionOf (p : Photo) : String := (jsOrStr p.name "").take 24

/-- One iteration of the photo loop: skip the entry when decoding fails;
otherwise wrap the row after 3 cells, start a new page when the row bottom
would pass the bottom content boundary (`rowY + cellH >
doc.page.height - doc.page.margins.bottom`; `addPage` puts the cursor at
the top-left margin), then draw the cell and advance. -/
def photoStep (g : Geom) (st : GridState) (p : Photo) : GridState × List Op :=
  match dataUrlToBuffer p.dataUrl with
  | none => (st, [])
  | some b =>
    let st1 := rowStart st
    if st1.rowY + cellH > g.pageHeight - g.bottomMargin then
      let st2 : GridState :=
        { page := st1.page + 1, rowY := g.topMargin, x := g.leftMargin, col := 0,
          docX := g.leftMargin }
      let st3 : GridState :=
        { st2 with x := st2.x + cellW + gap, col := st2.col + 1, docX := st2.x }
      (st3, [Op.pageBreak,
             Op.photoCell st2.page st2.x st2.rowY b (imageOk b) (captionOf p)])
    else
      let st3 : GridState :=
        { st1 with x := st1.x + cellW + gap, col := st1.col + 1, docX := st1.x }
      (st3, [Op.photoCell st1.page st1.x st1.rowY b (imageOk b) (captionOf p)])

/-- `for (const p of validPhotos) { ... }`. -/
def photoLoopAux (g : Geom) : GridState → List Photo → GridState × List Op
  | st, [] => (st, [])
  | st, p :: ps =>
    let r1 := photoStep g st p
    let r2 := photoLoopAux g r1.1 ps
    (r2.1, r1.2 ++ r2.2)

/-- Initial loop state: `let x = doc.x, rowY = doc.y, col = 0` on the first
page. -/
def initGrid (g : Geom) : GridState :=
  { x := g.gridStartX, rowY := g.gridStartY, col := 0, page := 0, docX := g.gridStartX }

/-- `Array.isArray(photos) ? photos.slice(0, 12) : []`
(src/server.js line 158). -/
def validPhotos : PhotosField → List Photo
  | PhotosField.arr ps => ps.take 12
  | _ => []

/-- The photo section: `if (validPhotos.length)` guards the `Photos`
heading and the grid loop. -/
def photosOps (g : Geom) (pf : PhotosField) : List Op :=
  let vp := validPhotos pf
  if vp = [] then []
  else Op.sectionHeading "Photos" :: (photoLoopAux g (initGrid g) vp).2

/-- `buildPdfBuffer` (src/server.js lines 88-192) as the ordered list of
drawing operations: title, generation stamp (`now` stands for
`new Date().toLocaleString()`), metadata block, notes, signature block,
photo grid. -/
def buildPdf (g : Geom) (p : Payload) (now : String) : List Op :=
  [Op.title "OSD – Driver Sign-Off", Op.genStamp now]
  ++ metadataOps g p
  ++ [Op.sectionHeading "Notes / Exceptions", Op.paragraph (jsOrStr p.notes "—")]
  ++ signatureOps p.signatureDataUrl
  ++ photosOps g p.photos

/-- Erase the generation timestamp, keeping every other operation intact. -/
def stripStamp : Op → Op
  | Op.genStamp _ => Op.genStamp ""
  | o => o

/-- Operations that issue a `doc.image` call. -/
def isImageCall : Op → Bool
  | Op.sigImage _ _ => true
  | Op.photoCell _ _ _ _ _ _ => true
  | _ => false

def isPageBreak : Op → Bool
  | Op.pageBreak => true
  | _ => false

/-- Number of `doc.image` calls a trace performs. -/
def countImageCalls (ops : List Op) : Nat := (ops.filter isImageCall).length

/-! Pages are created by two mechanisms: the composer's explicit `addPage`
in the photo loop (the `pageBreak` trace operations), and the PDF library's
own text flow — `doc.text` starts a new page on its own when a line of a
paragraph would run past the bottom content boundary.  The flow model below
covers the second mechanism for the notes paragraph.  It is conservative:
a paragraph is split into lines at newline characters only (width-driven
word wrapping, and overflow of the other long text fields, are not
modelled; both can only add further pages). -/

/-- Lines the library lays out for a paragraph: one per newline character
plus the final line. -/
def paragraphLines (s : String) : Nat :=
  (s.toList.filter (fun c => c == '\n')).length + 1

/-- The library's per-line pagination while flowing `n` lines from cursor
`y`: a line ends `lineHeight` below its start; when it would end past
`maxY` (the bottom content boundary), a page is started first and the line
is laid at the top margin.  Returns the number of pages added. -/
def flowBreaks (maxY topMargin lineHeight : Int) : Int → Nat → Nat
  | _, 0 => 0
  | y, n + 1 =>
    if y + lineHeight > maxY then
      1 + flowBreaks maxY topMargin lineHeight (topMargin + lineHeight) n
    else
      flowBreaks maxY topMargin lineHeight (y + lineHeight) n

/-- Geometry for the text flow: the page geometry plus the library-supplied
cursor position at which the notes paragraph starts and the line height of
the active font and size. -/
structure FlowGeom where
  geom : Geom
  notesStartY : Int
  lineHeight : Int
  deriving DecidableEq, Repr

/-- Page count of the rendered artifact: the initial page, the composer's
explicit page breaks, and the pages the library's text flow adds while
laying out the notes paragraph.  Conservative as described above: the real
artifact has at least this many pages. -/
def flowedPageCount (fg : FlowGeom) (p : Payload) (now : String) : Nat :=
  1 + ((buildPdf fg.geom p now).filter isPageBreak).length
    + flowBreaks (fg.geom.pageHeight - fg.geom.bottomMargin) fg.geom.topMargin
        fg.lineHeight fg.notesStartY (paragraphLines (jsOrStr p.notes "—"))

/-- Replace the photos field, leaving the rest of the payload unchanged. -/
def setPhotos (p : Payload) (pf : PhotosField) : Payload :=
  { p with photos := pf }

/-! ## Route handler (`app.post('/api/signoff')`, src/server.js 195-218) -/

/-- Observable events of one handler run, in execution order. -/
inductive HEvent where
  | artifactBuilt (ops : List Op)
  | mailDispatched (toAddr : String)
  | respondedOk (id : String)
  | respondedError (status : Nat) (msg : String)
  deriving DecidableEq, Repr

/-- The `/api/signoff` handler: `await buildPdfBuffer(req.body || {})`
first, then `toEmail = req.body?.toEmail || process.env.TO_EMAIL`, then the
recipient check; on success the PDF is mailed to the resolved string
verbatim and `{ ok: true, id }` is returned. -/
def handleSignoff (g : Geom) (env : Env) (body : Payload) (now : String)
    (idStr : String) : List HEvent :=
  let pdf := buildPdf g body now
  let toEmail := if isTruthyStr body.toEmail then body.toEmail else env.toEmail
  if isTruthyStr toEmail then
    [HEvent.artifactBuilt pdf, HEvent.mailDispatched (toEmail.getD ""),
     HEvent.respondedOk idStr]
  else
    [HEvent.artifactBuilt pdf,
     HEvent.respondedError 400 "No recipient email (toEmail or TO_EMAIL)."]

/-- The recipient string a run handed to the mail transport, if any. -/
def dispatchedTo (evs : List HEvent) : Option String :=
  evs.findSome? (fun e =>
    match e with
    | HEvent.mailDispatched a => some a
    | _ => none)

/-- Delimiters of the spec's address-list grammar. -/
def isAddrDelim (c : Char) : Bool := c = ',' || c = ';' || c.isWhitespace

/-- Tokenizer: accumulate non-delimiter characters, emit the token at each
delimiter or at the end, dropping empty tokens. -/
def tokenizeAddrs : List Char → List Char → List String
  | cur, [] => if cur = [] then [] else [String.mk cur]
  | cur, c :: rest =>
    if isAddrDelim c then
      (if cur = [] then [] else [String.mk cur]) ++ tokenizeAddrs [] rest
    else tokenizeAddrs (cur ++ [c]) rest

/-- Modelled from the spec: the address-list parsing the specification
describes ("split on any run of comma/semicolon/whitespace, trim, drop
empty tokens, preserve original order, do not deduplicate").  No such
parsing exists in src/server.js; this definition serves only as the
comparison point for the parsing claim. -/
def specParseAddressList (s : String) : List String := tokenizeAddrs [] s.toList

/-! ## Concrete values used by witnesses and counterexamples -/

/-- Letter-size page with the 40-point margin of `new PDFDocument({ margin:
40 })`; the grid starts at a cursor position low enough on the page for a
fourth row to overflow. -/
def geom0 : Geom :=
  { pageHeight := 792, bottomMargin := 40, topMargin := 40, leftMargin := 40,
    gridStartX := 40, gridStartY := 300 }

def emptyPayload : Payload :=
  { timestamp := none, location := none, loadId := none, poNumber := none,
    trailerNumber := none, stopNumber := none, carrier := none, vendorId := none,
    vendorName := none, notes := none, driverName := none, proNumber := none,
    signatureDataUrl := JsArg.undef, photos := PhotosField.undef, toEmail := none }

def envNone : Env := { toEmail := none }

/-- A photo whose data URL does not match the expected pattern. -/
def badPhoto : Photo := { dataUrl := JsArg.str "nope", name := none }

/-- A photo with a well-formed data URL (payload decodes to three zero
bytes). -/
def goodPhoto : Photo := { dataUrl := JsArg.str "data:image/png;base64,AAAA", name := some "row4.png" }

def payloadC4 : Payload :=
  { emptyPayload with toEmail := some " a@x.com, b@y.com ; c@z.com" }

def payloadSingleAddr : Payload :=
  { emptyPayload with toEmail := some "x@y.z" }

def twelvePhotos : List Photo := List.replicate 12 badPhoto

/-- Loop state at the start of a fourth grid row on a letter page: the
third row ended at `rowY = 520`, so the next row would begin at 652 and
reach 772, past the 752 boundary. -/
def gridStateRow4 : GridState :=
  { x := 40, rowY := 520, col := 3, page := 0, docX := 368 }

def payloadNonArrayPhotos : Payload :=
  { emptyPayload with photos := PhotosField.nonArray }

/-- A notes string of 200 one-character lines. -/
def longNotes : String := String.mk (List.flatten (List.replicate 200 ['x', '\n']))

/-- A payload with no photos and no signature but a long notes string. -/
def longNotesPayload : Payload := { emptyPayload with notes := some longNotes }

/-- Flow geometry on the letter page: the notes paragraph starts at
`y = 300`, and `lineHeight = 9` approximates Helvetica at the active size
10 (the code sets `fontSize(10)` before the stamp and never raises it again
for body text).  Any positive line height gives the same conclusion for a
200-line paragraph. -/
def flowGeom0 : FlowGeom := { geom := geom0, notesStartY := 300, lineHeight := 9 }

/-! ## Claims -/

/-- Claim C1 as stated is false at the concrete input it names: for the
payload `{}` with no default recipient configured, the handler does respond
with the missing-recipient error, but only after `buildPdfBuffer` has
completed — the run's first event is the built (non-empty) artifact,
so document bytes are produced before the rejection. -/
theorem C1_counterexample :
    handleSignoff geom0 envNone emptyPayload "t1" "id1" =
      [HEvent.artifactBuilt (buildPdf geom0 emptyPayload "t1"),
       HEvent.respondedError 400 "No recipient email (toEmail or TO_EMAIL)."]
    ∧ buildPdf geom0 emptyPayload "t1" ≠ [] := by
  exact ⟨rfl, by decide⟩

/-- Claim C1 amended: whenever neither the payload's `toEmail` nor the
environment default is a non-empty string, the handler responds with the
missing-recipient error, but the PDF artifact is built first: the rendering
is not gated by the recipient check. -/
theorem C1_amended (g : Geom) (env : Env) (body : Payload) (now idStr : String)
    (hb : isTruthyStr body.toEmail = false) (he : isTruthyStr env.toEmail = false) :
    handleSignoff g env body now idStr =
      [HEvent.artifactBuilt (buildPdf g body now),
       HEvent.respondedError 400 "No recipient email (toEmail or TO_EMAIL)."] := by
  simp [handleSignoff, hb, he]

/-- Witness for C1's amended theorem at the payload `{}`. -/
theorem C1_witness :
    handleSignoff geom0 envNone emptyPayload "u1" "v1" =
      [HEvent.artifactBuilt (buildPdf geom0 emptyPayload "u1"),
       HEvent.respondedError 400 "No recipient email (toEmail or TO_EMAIL)."] :=
  C1_amended geom0 envNone emptyPayload "u1" "v1" rfl rfl

/-- Claim C2: for a photo list extending past 12 entries, exactly the first
12 are considered for layout, and the trailing entries contribute nothing
to the rendered output, whatever they contain. -/
theorem C2_thm (g : Geom) (p : Payload) (now : String) (ps rest : List Photo)
    (h : ps.length = 12) :
    validPhotos (PhotosField.arr (ps ++ rest)) = ps
    ∧ buildPdf g (setPhotos p (PhotosField.arr (ps ++ rest))) now
        = buildPdf g (setPhotos p (PhotosField.arr ps)) now := by
  have hv : validPhotos (PhotosField.arr (ps ++ rest)) = ps := by
    show (ps ++ rest).take 12 = ps
    rw [← h]
    exact List.take_left ps rest
  have hv2 : validPhotos (PhotosField.arr ps) = ps := by
    show ps.take 12 = ps
    rw [← h]
    exact List.take_length ps
  refine ⟨hv, ?_⟩
  simp [buildPdf, setPhotos, metadataOps, photosOps, hv, hv2]

/-- Witness for C2 at a concrete 13-entry list. -/
theorem C2_witness :
    validPhotos (PhotosField.arr (twelvePhotos ++ [goodPhoto])) = twelvePhotos
    ∧ buildPdf geom0 (setPhotos emptyPayload (PhotosField.arr (twelvePhotos ++ [goodPhoto]))) "t2"
        = buildPdf geom0 (setPhotos emptyPayload (PhotosField.arr twelvePhotos)) "t2" :=
  C2_thm geom0 emptyPayload "t2" twelvePhotos [goodPhoto] (by decide)

/-- Claim C3: the decoder returns `none` for every non-string, for the
empty string, and for every string the data-URL pattern rejects (and, being
a total function, never raises); on a `none` result the composer emits no
cell at all for the photo and no signature block for the signature, so the
build degrades instead of aborting. -/
theorem C3_thm :
    (∀ a : JsArg, (∀ s, a ≠ JsArg.str s) → dataUrlToBuffer a = none)
    ∧ dataUrlToBuffer (JsArg.str "") = none
    ∧ (∀ s, matchDataUrl s = none → dataUrlToBuffer (JsArg.str s) = none)
    ∧ (∀ (g : Geom) (st : GridState) (p : Photo),
        dataUrlToBuffer p.dataUrl = none → photoStep g st p = (st, []))
    ∧ (∀ sig : JsArg, dataUrlToBuffer sig = none → signatureOps sig = []) := by
  refine ⟨?_, rfl, ?_, ?_, ?_⟩
  · intro a h
    cases a with
    | str s => exact absurd rfl (h s)
    | nullv => rfl
    | undef => rfl
    | otherNonString => rfl
  · intro s h
    by_cases hs : s = ""
    · simp [dataUrlToBuffer, hs]
    · simp [dataUrlToBuffer, hs, h]
  · intro g st p h
    simp [photoStep, h]
  · intro sig h
    simp [signatureOps, h]

/-- Witness for C3 at concrete malformed inputs. -/
theorem C3_witness :
    dataUrlToBuffer JsArg.nullv = none
    ∧ dataUrlToBuffer (JsArg.str "nope") = none
    ∧ photoStep geom0 (initGrid geom0) badPhoto = (initGrid geom0, [])
    ∧ signatureOps (JsArg.str "nope") = [] := by
  refine ⟨?_, ?_, ?_, ?_⟩
  · exact C3_thm.1 JsArg.nullv (fun s h => JsArg.noConfusion h)
  · exact C3_thm.2.2.1 "nope" (by decide)
  · exact C3_thm.2.2.2.1 geom0 (initGrid geom0) badPhoto (by decide)
  · exact C3_thm.2.2.2.2 (JsArg.str "nope") (by decide)

/-- Claim C4 as stated is false: the server performs no address parsing.
At the exact input the claim names, the string handed to the mail transport
is the raw `toEmail` value — leading space and semicolon intact — not the
parsed list the claim describes (reproduced here by the spec-modelled
parser for comparison). -/
theorem C4_counterexample :
    dispatchedTo (handleSignoff geom0 envNone payloadC4 "t4" "id4")
        = some " a@x.com, b@y.com ; c@z.com"
    ∧ specParseAddressList " a@x.com, b@y.com ; c@z.com"
        = ["a@x.com", "b@y.com", "c@z.com"]
    ∧ " a@x.com, b@y.com ; c@z.com"
        ≠ String.intercalate ", " (specParseAddressList " a@x.com, b@y.com ; c@z.com") := by
  exact ⟨rfl, by decide, by decide⟩

/-- Claim C4 amended: recipient strings are not parsed; whatever non-empty
string the payload's `toEmail` holds is passed verbatim to the mail
transport. -/
theorem C4_amended (g : Geom) (env : Env) (p : Payload) (now idStr s : String)
    (hp : p.toEmail = some s) (hs : s ≠ "") :
    dispatchedTo (handleSignoff g env p now idStr) = some s := by
  simp [handleSignoff, isTruthyStr, hp, hs, dispatchedTo, List.findSome?]

/-- Witness for C4's amended theorem. -/
theorem C4_witness :
    dispatchedTo (handleSignoff geom0 envNone payloadSingleAddr "t" "i") = some "x@y.z" :=
  C4_amended geom0 envNone payloadSingleAddr "t" "i" "x@y.z" rfl (by decide)

/-- Claim C5: whenever the row a decoded photo is about to join would
start (or extend) below the page's bottom content boundary, a page break is
emitted before the cell, and the cell is drawn on the next page at the top
margin (with the cursor also reset to the left margin). -/
theorem C5_thm (g : Geom) (st : GridState) (p : Photo) (b : List Nat)
    (hb : dataUrlToBuffer p.dataUrl = some b)
    (hover : (rowStart st).rowY + cellH > g.pageHeight - g.bottomMargin) :
    (photoStep g st p).2 =
      [Op.pageBreak,
       Op.photoCell ((rowStart st).page + 1) g.leftMargin g.topMargin b (imageOk b)
         (captionOf p)]
    ∧ (photoStep g st p).1.rowY = g.topMargin
    ∧ (photoStep g st p).1.page = (rowStart st).page + 1 := by
  simp [photoStep, hb, hover]

/-- Witness for C5: a full third row ends low on the page, so the fourth
row's first cell moves to a fresh page at the top margin. -/
theorem C5_witness :
    (photoStep geom0 gridStateRow4 goodPhoto).2 =
      [Op.pageBreak,
       Op.photoCell ((rowStart gridStateRow4).page + 1) geom0.leftMargin geom0.topMargin
         [0, 0, 0] (imageOk [0, 0, 0]) (captionOf goodPhoto)]
    ∧ (photoStep geom0 gridStateRow4 goodPhoto).1.rowY = geom0.topMargin
    ∧ (photoStep geom0 gridStateRow4 goodPhoto).1.page = (rowStart gridStateRow4).page + 1 :=
  C5_thm geom0 gridStateRow4 goodPhoto [0, 0, 0] (by decide) (by decide)

/-- Claim C6 as stated is false: `data:image/png;base64,!` decodes to the
empty byte list (`!` is not a base64 digit), yet the signature block —
heading and border included — is still emitted, because the guard
`if (sigBuf)` only tests for `null`, not for emptiness. -/
theorem C6_counterexample :
    dataUrlToBuffer (JsArg.str "data:image/png;base64,!") = some []
    ∧ signatureOps (JsArg.str "data:image/png;base64,!") =
        [Op.sectionHeading "Driver Signature", Op.sigBorder 384 124,
         Op.sigImage [] false] := by
  exact ⟨by decide, by decide⟩

/-- Claim C6 amended: the signature block (heading included) is emitted if
and only if the decoder returns a binary at all — the emptiness of that
binary is not checked. -/
theorem C6_amended (sig : JsArg) :
    (signatureOps sig ≠ [] ↔ (dataUrlToBuffer sig).isSome = true)
    ∧ (Op.sectionHeading "Driver Signature" ∈ signatureOps sig
        ↔ (dataUrlToBuffer sig).isSome = true) := by
  cases h : dataUrlToBuffer sig <;> simp [signatureOps, h]

/-- Claim C7 as stated is false: a photo list whose single entry fails to
decode still produces the `Photos` heading, because the guard tests
`validPhotos.length`, not decode success. -/
theorem C7_counterexample :
    dataUrlToBuffer badPhoto.dataUrl = none
    ∧ photosOps geom0 (PhotosField.arr [badPhoto]) = [Op.sectionHeading "Photos"] := by
  exact ⟨by decide, by decide⟩

/-- Claim C7 amended: the `Photos` heading is emitted if and only if the
truncated photo list is non-empty, regardless of whether any entry
decodes. -/
theorem C7_amended (g : Geom) (pf : PhotosField) :
    (photosOps g pf).head? = some (Op.sectionHeading "Photos") ↔ validPhotos pf ≠ [] := by
  by_cases h : validPhotos pf = [] <;> simp [photosOps, h]

set_option maxRecDepth 4000 in
/-- Claim C8 as stated is false: a payload with no photos and no signature
but a 200-line notes string does not produce a one-page artifact — the
library's text flow breaks the notes paragraph across pages (three pages
with the letter geometry, and the flow model only undercounts), while zero
image-placement calls and the presence of the metadata and notes sections
are unaffected. -/
theorem C8_counterexample :
    longNotesPayload.photos = PhotosField.undef
    ∧ longNotesPayload.signatureDataUrl = JsArg.undef
    ∧ flowedPageCount flowGeom0 longNotesPayload "t8" = 3
    ∧ flowedPageCount flowGeom0 longNotesPayload "t8" ≠ 1 := by
  exact ⟨rfl, rfl, by decide, by decide⟩

/-- Claim C8 amended: for every payload with no photos and no signature the
composer emits exactly the title, the generation stamp, the metadata block
and the notes section, performs zero image-placement calls, and itself
starts no new page — the artifact's page count is then determined solely by
the library's text flow, so it is one page exactly when the flowed text
fits within one page. -/
theorem C8_amended (g : Geom) (p : Payload) (now : String)
    (hp : validPhotos p.photos = []) (hs : p.signatureDataUrl = JsArg.undef) :
    buildPdf g p now =
      [Op.title "OSD – Driver Sign-Off", Op.genStamp now]
        ++ metadataOps g p
        ++ [Op.sectionHeading "Notes / Exceptions", Op.paragraph (jsOrStr p.notes "—")]
    ∧ countImageCalls (buildPdf g p now) = 0
    ∧ (buildPdf g p now).filter isPageBreak = [] := by
  have hsig : signatureOps p.signatureDataUrl = [] := by rw [hs]; rfl
  have hph : photosOps g p.photos = [] := by simp [photosOps, hp]
  have hbuild : buildPdf g p now =
      [Op.title "OSD – Driver Sign-Off", Op.genStamp now]
        ++ metadataOps g p
        ++ [Op.sectionHeading "Notes / Exceptions", Op.paragraph (jsOrStr p.notes "—")] := by
    simp [buildPdf, hsig, hph]
  refine ⟨hbuild, ?_, ?_⟩
  · rw [hbuild]
    simp [countImageCalls, metadataOps, isImageCall, List.filter]
  · rw [hbuild]
    simp [metadataOps, isPageBreak, List.filter]

/-- Witness for C8's amended theorem at the empty payload. -/
theorem C8_witness :
    buildPdf geom0 emptyPayload "t8" =
      [Op.title "OSD – Driver Sign-Off", Op.genStamp "t8"]
        ++ metadataOps geom0 emptyPayload
        ++ [Op.sectionHeading "Notes / Exceptions",
            Op.paragraph (jsOrStr emptyPayload.notes "—")]
    ∧ countImageCalls (buildPdf geom0 emptyPayload "t8") = 0
    ∧ (buildPdf geom0 emptyPayload "t8").filter isPageBreak = [] :=
  C8_amended geom0 emptyPayload "t8" rfl rfl

/-- Claim C9: two runs on the same payload differ at most in the
generation timestamp — erasing the stamp makes the two operation traces
identical, so all visible field content and embedded image bytes agree. -/
theorem C9_thm (g : Geom) (p : Payload) (t1 t2 : String) :
    List.map stripStamp (buildPdf g p t1) = List.map stripStamp (buildPdf g p t2) := by
  simp [buildPdf, stripStamp]

/-- Claim C10: a `photos` field that is present but not an array is treated
as the empty photo list — no `Photos` heading is emitted and the build
completes (the rendering function is total). -/
theorem C10_thm (g : Geom) (p : Payload) (now : String)
    (hp : p.photos = PhotosField.nonArray ∨ p.photos = PhotosField.nullv) :
    validPhotos p.photos = []
    ∧ Op.sectionHeading "Photos" ∉ buildPdf g p now := by
  have hv : validPhotos p.photos = [] := by
    cases hp with
    | inl h => rw [h]; rfl
    | inr h => rw [h]; rfl
  refine ⟨hv, ?_⟩
  have hph : photosOps g p.photos = [] := by simp [photosOps, hv]
  cases h : dataUrlToBuffer p.signatureDataUrl <;>
    simp [buildPdf, hph, metadataOps, signatureOps, h]

/-- Witness for C10 at a payload whose `photos` field is a non-array. -/
theorem C10_witness :
    validPhotos payloadNonArrayPhotos.photos = []
    ∧ Op.sectionHeading "Photos" ∉ buildPdf geom0 payloadNonArrayPhotos "t10" :=
  C10_thm geom0 payloadNonArrayPhotos "t10" (Or.inl rfl)

end OsdWebform
